import Mathlib

/-!
Shallow embedding of the Qimen Dunjia divination core of the modelVS3
repository (src/qimenEngine), together with theorems settling the frozen
claims about it.  Python integers are modelled by Int; Python `%` and `//`
with positive divisors coincide with Int.emod and Int.ediv, which are the
`%` and `/` of Int in Lean.  Python floats that only ever hold exact
decimal fractions in the claims under study are modelled by ℚ.
-/

namespace ModelVS3

/-! ## Fixed symbol tables (module symbols.py)

The module symbols.py is imported throughout src/qimenEngine but is not
part of the source tree, so its tables are modelled from the spec. -/

/-- Modelled from the spec: symbols.py is missing from the source tree; the
spec fixes a 10-element heavenly-stem cycle (§4.2, glossary). -/
def TIAN_GAN : List String :=
  ["甲", "乙", "丙", "丁", "戊", "己", "庚", "辛", "壬", "癸"]

/-- Modelled from the spec: symbols.py is missing from the source tree; the
spec fixes a 12-element earthly-branch cycle with 子 first (§4.2, §4.4:
hour-branch numbers are 1-12 with zi = 1 ... hai = 12). -/
def DI_ZHI : List String :=
  ["子", "丑", "寅", "卯", "辰", "巳", "午", "未", "申", "酉", "戌", "亥"]

/-- Modelled from the spec: symbols.py is missing; palace names for the nine
Luoshu palaces (§4.5 and the per-palace meaning table of palace.py, which
names palace 1 坎, 2 坤, 3 震, 4 巽, 5 中, 6 乾, 7 兑, 8 艮, 9 离). -/
def JIU_GONG (gong_num : Int) : String :=
  if gong_num = 1 then "坎宫" else if gong_num = 2 then "坤宫"
  else if gong_num = 3 then "震宫" else if gong_num = 4 then "巽宫"
  else if gong_num = 5 then "中宫" else if gong_num = 6 then "乾宫"
  else if gong_num = 7 then "兑宫" else if gong_num = 8 then "艮宫"
  else if gong_num = 9 then "离宫" else ""

/-- Modelled from the spec: symbols.py is missing; compass position of each
palace on the fixed Luoshu layout (§4.5). -/
def GONG_POSITION (gong_num : Int) : String :=
  if gong_num = 1 then "北" else if gong_num = 2 then "西南"
  else if gong_num = 3 then "东" else if gong_num = 4 then "东南"
  else if gong_num = 5 then "中" else if gong_num = 6 then "西北"
  else if gong_num = 7 then "西" else if gong_num = 8 then "东北"
  else if gong_num = 9 then "南" else ""

/-- Modelled from the spec: symbols.py is missing; trigram of each palace
(§3: each PalaceCell holds a trigram). -/
def BAGUA_GONG (gong_num : Int) : String :=
  if gong_num = 1 then "坎" else if gong_num = 2 then "坤"
  else if gong_num = 3 then "震" else if gong_num = 4 then "巽"
  else if gong_num = 5 then "中" else if gong_num = 6 then "乾"
  else if gong_num = 7 then "兑" else if gong_num = 8 then "艮"
  else if gong_num = 9 then "离" else ""

/-! ## Data model (qimen_calendar.CalendarInfo, palace.PalaceInfo/NinePalace) -/

/-- CalendarInfo from qimen_calendar.py (a TypedDict there).  The float field
time_difference_minutes is modelled by ℚ. -/
structure CalendarInfo where
  year : Int
  month : Int
  day : Int
  hour : Int
  minute : Int
  second : Int
  timezone : String
  solar_term : String
  solar_term_index : Int
  year_gan : String
  year_zhi : String
  month_gan : String
  month_zhi : String
  day_gan : String
  day_zhi : String
  hour_gan : String
  hour_zhi : String
  shi_chen : String
  is_early_zi : Bool
  is_late_zi : Bool
  jie_qi_day : Int
  yuan_shou : Int
  use_true_solar_time : Bool
  true_solar_time : Option String
  time_difference_minutes : ℚ
  standard_time_shi_chen : String
deriving DecidableEq, Repr

/-- PalaceInfo from palace.py (a TypedDict there). -/
structure PalaceInfo where
  gong_num : Int
  gong_name : String
  position : String
  bagua : String
  gan : String
  men : String
  xing : String
  shen : String
  wu_xing : String
deriving DecidableEq, Repr

/-- NinePalace from palace.py: the palaces dict is keyed by the strings
"1".."9" and is modelled as an association list in insertion order. -/
structure NinePalace where
  ju_number : Int
  is_yang : Bool
  ju_name : String
  palaces : List (String × PalaceInfo)
  calendar_info : Option CalendarInfo
  mode : String
deriving DecidableEq, Repr

/-! ## Ju (chart number) calculator (ju.py) -/

/-- is_yang_dune from ju.py lines 79-101: Yang iff the solar-term index is
at least 23 or at most 11. -/
def is_yang_dune (cal : CalendarInfo) : Bool :=
  if 23 ≤ cal.solar_term_index ∨ cal.solar_term_index ≤ 11 then true else false

/-- get_shi_chen_number from ju.py lines 169-186: hour-branch to 1..12 via a
literal table; an unknown branch falls back to 1 (dict .get default). -/
def get_shi_chen_number (hour_zhi : String) : Int :=
  if hour_zhi = "子" then 1 else if hour_zhi = "丑" then 2
  else if hour_zhi = "寅" then 3 else if hour_zhi = "卯" then 4
  else if hour_zhi = "辰" then 5 else if hour_zhi = "巳" then 6
  else if hour_zhi = "午" then 7 else if hour_zhi = "未" then 8
  else if hour_zhi = "申" then 9 else if hour_zhi = "酉" then 10
  else if hour_zhi = "戌" then 11 else if hour_zhi = "亥" then 12
  else 1

/-- calculate_ju_number_chabu from ju.py lines 104-133. -/
def calculate_ju_number_chabu (cal : CalendarInfo) (is_yang : Bool) : Int :=
  let yuan_shou := cal.yuan_shou
  let shi_chen_num := get_shi_chen_number cal.hour_zhi
  let base_ju :=
    if is_yang then (yuan_shou + shi_chen_num - 1) % 9
    else (yuan_shou - shi_chen_num + 1) % 9
  if base_ju = 0 then 9 else base_ju

/-- get_ju_chabu from ju.py lines 38-54. -/
def get_ju_chabu (cal : CalendarInfo) : Int × Bool :=
  let is_yang := is_yang_dune cal
  (calculate_ju_number_chabu cal is_yang, is_yang)

/-- calculate_ju_index_huopan from ju.py lines 136-166.  Python list.index on
the stem and branch tables is modelled by List.indexOf (they agree whenever
the looked-up symbol is in the table, which the claims assume). -/
def calculate_ju_index_huopan (cal : CalendarInfo) (is_yang : Bool) : Int :=
  let day_gan_num : Int := TIAN_GAN.indexOf cal.day_gan
  let day_zhi_num : Int := DI_ZHI.indexOf cal.day_zhi
  let hour_zhi_num : Int := DI_ZHI.indexOf cal.hour_zhi
  let base_index :=
    (cal.solar_term_index * 2 + day_gan_num + day_zhi_num + hour_zhi_num) % 18
  if is_yang then base_index % 9 else 9 + base_index % 9

/-- get_ju_huopan from ju.py lines 57-76. -/
def get_ju_huopan (cal : CalendarInfo) : Int × Bool :=
  let is_yang := is_yang_dune cal
  let ju_index := calculate_ju_index_huopan cal is_yang
  (ju_index % 9 + 1, is_yang)

/-! ## GanZhi calculator (ganzhi.py) and the hour pillar of from_datetime -/

/-- calculate_year_ganzhi from ganzhi.py lines 57-74: offset from the 1984
epoch, modulo 10 and 12. -/
def calculate_year_ganzhi (year : Int) : String × String :=
  let base_year : Int := 1984
  let offset := year - base_year
  let gan_index := offset % 10
  let zhi_index := offset % 12
  (TIAN_GAN.getD gan_index.toNat "", DI_ZHI.getD zhi_index.toNat "")

/-- YEAR_MONTH_GAN_TABLE from ganzhi.py lines 21-27, with the dict .get
default 2 used at its call sites. -/
def YEAR_MONTH_GAN_TABLE (i : Int) : Int :=
  if i = 0 ∨ i = 4 then 2 else if i = 1 ∨ i = 5 then 4
  else if i = 2 ∨ i = 6 then 6 else if i = 3 ∨ i = 7 then 8
  else if i = 8 ∨ i = 9 then 0 else 2

/-- DAY_HOUR_GAN_TABLE from ganzhi.py lines 30-36 (repeated literally in
qimen_calendar.from_datetime lines 109-115), with the dict .get default 0
used at its call sites. -/
def DAY_HOUR_GAN_TABLE (i : Int) : Int :=
  if i = 0 ∨ i = 5 then 0 else if i = 1 ∨ i = 6 then 2
  else if i = 2 ∨ i = 7 then 4 else if i = 3 ∨ i = 8 then 6
  else if i = 4 ∨ i = 9 then 8 else 0

/-- SOLAR_TERM_TO_ZHI from ganzhi.py lines 39-52, with the dict .get
default 2 used at its call site. -/
def SOLAR_TERM_TO_ZHI (term : String) : Int :=
  if term = "立春" ∨ term = "雨水" then 2
  else if term = "惊蛰" ∨ term = "春分" then 3
  else if term = "清明" ∨ term = "谷雨" then 4
  else if term = "立夏" ∨ term = "小满" then 5
  else if term = "芒种" ∨ term = "夏至" then 6
  else if term = "小暑" ∨ term = "大暑" then 7
  else if term = "立秋" ∨ term = "处暑" then 8
  else if term = "白露" ∨ term = "秋分" then 9
  else if term = "寒露" ∨ term = "霜降" then 10
  else if term = "立冬" ∨ term = "小雪" then 11
  else if term = "大雪" ∨ term = "冬至" then 0
  else if term = "小寒" ∨ term = "大寒" then 1
  else 2

/-- Integer Julian day number, the Fliegel-Van Flandern formula from
astronomical.py lines 51-55.  Python // with the positive divisors used here
coincides with Int division in Lean.  It also models Python date subtraction:
(d1 - d2).days equals the difference of the two Gregorian JDNs. -/
def gregorian_jdn (year month day : Int) : Int :=
  let a := (14 - month) / 12
  let y := year + 4800 - a
  let m := month + 12 * a - 3
  day + (153 * m + 2) / 5 + 365 * y + y / 4 - y / 100 + y / 400 - 32045

/-- calculate_day_ganzhi from ganzhi.py lines 123-149: whole days from the
1900-01-01 epoch (stem 0, branch 10), modulo 10 and 12.  The Python
(target_date - base_date).days is the difference of Gregorian JDNs. -/
def calculate_day_ganzhi (year month day : Int) : String × String :=
  let base_gan_index : Int := 0
  let base_zhi_index : Int := 10
  let days_diff := gregorian_jdn year month day - gregorian_jdn 1900 1 1
  let gan_index := (base_gan_index + days_diff) % 10
  let zhi_index := (base_zhi_index + days_diff) % 12
  (TIAN_GAN.getD gan_index.toNat "", DI_ZHI.getD zhi_index.toNat "")

/-- calculate_month_ganzhi from ganzhi.py lines 76-121.  The current solar
term (obtained there from astro_calculator.get_current_solar_term) is passed
in as the solar_term argument; month is the civil month used by the
non-solar-term fallback branch. -/
def calculate_month_ganzhi (year : Int) (solar_term : String) (month : Int)
    (use_solar_terms : Bool) : String × String :=
  if use_solar_terms then
    let month_zhi_index := SOLAR_TERM_TO_ZHI solar_term
    let month_zhi := DI_ZHI.getD month_zhi_index.toNat ""
    let year_gan_index : Int := TIAN_GAN.indexOf (calculate_year_ganzhi year).1
    let base_month_gan_index := YEAR_MONTH_GAN_TABLE year_gan_index
    let month_gan_index := (base_month_gan_index + (month_zhi_index - 2)) % 10
    (TIAN_GAN.getD month_gan_index.toNat "", month_zhi)
  else
    let month_zhi_index := (month + 1) % 12
    let month_zhi := DI_ZHI.getD month_zhi_index.toNat ""
    let year_gan_index : Int := TIAN_GAN.indexOf (calculate_year_ganzhi year).1
    let base_month_gan_index := YEAR_MONTH_GAN_TABLE year_gan_index
    let month_gan_index := (base_month_gan_index + (month_zhi_index - 2)) % 10
    (TIAN_GAN.getD month_gan_index.toNat "", month_zhi)

/-- Hour pillar of qimen_calendar.from_datetime, lines 104-118: branch from
the 2-hour window (hour 23 maps to branch 0), stem by the five-rat rule keyed
by the day stem. -/
def from_datetime_hour_pillar (day_gan : String) (hour : Int) : String × String :=
  let hour_zhi_index : Int := if hour = 23 then 0 else (hour + 1) / 2
  let hour_zhi := DI_ZHI.getD hour_zhi_index.toNat ""
  let day_gan_index : Int := TIAN_GAN.indexOf day_gan
  let base_hour_gan_index := DAY_HOUR_GAN_TABLE day_gan_index
  let hour_gan_index := (base_hour_gan_index + hour_zhi_index) % 10
  (TIAN_GAN.getD hour_gan_index.toNat "", hour_zhi)

/-- Stem/branch parity invariant of §8 of the spec, stated on a (stem,
branch) string pair through the positions in the two cycles. -/
def stem_branch_parity (p : String × String) : Prop :=
  TIAN_GAN.indexOf p.1 % 2 = DI_ZHI.indexOf p.2 % 2

/-! ## Palace board builder (palace.py) -/

/-- Per-palace five-element table, palace.py lines 258-264 (wu_xing_map with
dict .get default 土). -/
def get_gong_wu_xing (gong_num : Int) : String :=
  if gong_num = 1 then "水" else if gong_num = 2 then "土"
  else if gong_num = 3 then "木" else if gong_num = 4 then "木"
  else if gong_num = 5 then "土" else if gong_num = 6 then "金"
  else if gong_num = 7 then "金" else if gong_num = 8 then "土"
  else if gong_num = 9 then "火" else "土"

/-- Base stem rotation sequence of palace.py line 182. -/
def base_sequence : List String :=
  ["戊", "己", "庚", "辛", "壬", "癸", "丁", "丙", "乙"]

/-- Base gate rotation sequence of palace.py line 183. -/
def men_sequence : List String :=
  ["休门", "死门", "伤门", "杜门", "中门", "开门", "惊门", "生门", "景门"]

/-- Base star rotation sequence of palace.py line 184. -/
def xing_sequence : List String :=
  ["天蓬", "天任", "天冲", "天辅", "天禽", "天心", "天柱", "天英", "天芮"]

/-- Base deity rotation sequence of palace.py line 185. -/
def shen_sequence : List String :=
  ["直符", "腾蛇", "太阴", "六合", "白虎", "玄武", "九地", "九天", "太常"]

/-- PalaceEngine._calculate_turn_pan from palace.py lines 175-223: the
computed-rotation fallback used when no reference layout is available. -/
def calculate_turn_pan (ju_number : Int) (is_yang : Bool) : NinePalace :=
  let dun_type := if is_yang then "阳遁" else "阴遁"
  let ju_name := dun_type ++ toString ju_number ++ "局"
  let offset : Int := if is_yang then ju_number - 1 else 9 - ju_number
  let bseq := if is_yang then base_sequence else base_sequence.reverse
  let mseq := if is_yang then men_sequence else men_sequence.reverse
  let xseq := if is_yang then xing_sequence else xing_sequence.reverse
  let sseq := if is_yang then shen_sequence else shen_sequence.reverse
  let palaces := (List.range 9).map (fun k =>
    let gong_num : Int := (k : Int) + 1
    let idx := ((gong_num - 1 + offset) % 9).toNat
    (toString gong_num,
      { gong_num := gong_num
        gong_name := JIU_GONG gong_num
        position := GONG_POSITION gong_num
        bagua := BAGUA_GONG gong_num
        gan := bseq.getD idx ""
        men := mseq.getD idx ""
        xing := xseq.getD idx ""
        shen := sseq.getD idx ""
        wu_xing := get_gong_wu_xing gong_num : PalaceInfo }))
  { ju_number := ju_number, is_yang := is_yang, ju_name := ju_name,
    palaces := palaces, calendar_info := none, mode := "turn" }

/-- PalaceEngine._calculate_fly_start_gong from palace.py lines 225-230. -/
def calculate_fly_start_gong (year_gan month_zhi day_gan hour_zhi : Nat) : Nat :=
  let start_pos := (year_gan + month_zhi + day_gan + hour_zhi) % 9
  if start_pos ≠ 0 then start_pos else 9

/-- PalaceEngine._calculate_fly_position from palace.py lines 232-236.  Both
arguments are at least 1 at the call sites, so Nat subtraction agrees with
Python. -/
def calculate_fly_position (start_gong gong_num : Nat) : Nat :=
  let fly_pos := (start_gong + gong_num - 1) % 9
  if fly_pos ≠ 0 then fly_pos else 9

/-- PalaceEngine._get_fly_gan from palace.py lines 238-241 (the sequence is
restated literally there). -/
def get_fly_gan (fly_pos : Nat) : String :=
  ["戊", "己", "庚", "辛", "壬", "癸", "丁", "丙", "乙"].getD (fly_pos - 1) ""

/-- PalaceEngine._get_fly_men from palace.py lines 243-246. -/
def get_fly_men (fly_pos : Nat) : String :=
  ["休门", "死门", "伤门", "杜门", "中门", "开门", "惊门", "生门", "景门"].getD
    (fly_pos - 1) ""

/-- PalaceEngine._get_fly_xing from palace.py lines 248-251. -/
def get_fly_xing (fly_pos : Nat) : String :=
  ["天蓬", "天任", "天冲", "天辅", "天禽", "天心", "天柱", "天英", "天芮"].getD
    (fly_pos - 1) ""

/-- PalaceEngine._get_fly_shen from palace.py lines 253-256. -/
def get_fly_shen (fly_pos : Nat) : String :=
  ["直符", "腾蛇", "太阴", "六合", "白虎", "玄武", "九地", "九天", "太常"].getD
    (fly_pos - 1) ""

/-- PalaceEngine.fly_pan from palace.py lines 125-173. -/
def fly_pan (cal : CalendarInfo) : NinePalace :=
  let year_gan_idx := TIAN_GAN.indexOf cal.year_gan
  let month_zhi_idx := DI_ZHI.indexOf cal.month_zhi
  let day_gan_idx := TIAN_GAN.indexOf cal.day_gan
  let hour_zhi_idx := DI_ZHI.indexOf cal.hour_zhi
  let start_gong :=
    calculate_fly_start_gong year_gan_idx month_zhi_idx day_gan_idx hour_zhi_idx
  let palaces := (List.range 9).map (fun k =>
    let gong_num := k + 1
    let fly_pos := calculate_fly_position start_gong gong_num
    (toString gong_num,
      { gong_num := (gong_num : Int)
        gong_name := JIU_GONG gong_num
        position := GONG_POSITION gong_num
        bagua := BAGUA_GONG gong_num
        gan := get_fly_gan fly_pos
        men := get_fly_men fly_pos
        xing := get_fly_xing fly_pos
        shen := get_fly_shen fly_pos
        wu_xing := get_gong_wu_xing gong_num : PalaceInfo }))
  { ju_number := 0, is_yang := true, ju_name := "飞盘",
    palaces := palaces, calendar_info := some cal, mode := "fly" }

/-! ## Astronomical calculator (astronomical.py) -/

/-- Python datetime value: civil fields plus an optional fixed-offset tzinfo,
modelled as the UTC offset in minutes (none = naive). -/
structure PyDateTime where
  year : Int
  month : Int
  day : Int
  hour : Int
  minute : Int
  second : Int
  tz : Option Int
deriving DecidableEq, Repr

/-- Python dt.replace(tzinfo=None): drops the tzinfo, keeping every civil
field unchanged. -/
def replace_tzinfo_none (dt : PyDateTime) : PyDateTime :=
  { dt with tz := none }

/-- AstronomicalCalculator.julian_day from astronomical.py lines 37-60: if
the input is timezone-aware the tzinfo is replaced by None (lines 48-49),
then the Fliegel-Van Flandern day number plus the fractional part with the
hour-12 day-boundary convention. -/
def julian_day (dt : PyDateTime) : ℚ :=
  let dt := if dt.tz.isSome then replace_tzinfo_none dt else dt
  let jdn := gregorian_jdn dt.year dt.month dt.day
  (jdn : ℚ) + ((dt.hour : ℚ) - 12) / 24 + (dt.minute : ℚ) / 1440
    + (dt.second : ℚ) / 86400

/-- Seconds since the Julian-day epoch of the instant denoted by the civil
fields of dt read as wall-clock time in a zone that is offset minutes east
of UTC. -/
def utc_total_seconds (dt : PyDateTime) (offset : Int) : Int :=
  gregorian_jdn dt.year dt.month dt.day * 86400 + dt.hour * 3600
    + dt.minute * 60 + dt.second - offset * 60

/-- Relational model of Python dt.astimezone(target) for fixed-offset
timezones: dtC is the target-zone representation of dt when dt carries some
offset o, dtC carries the target offset, and both denote the same instant. -/
def is_astimezone_of (dt dtC : PyDateTime) (target : Int) : Prop :=
  ∃ o, dt.tz = some o ∧ dtC.tz = some target ∧
    utc_total_seconds dtC target = utc_total_seconds dt o

/-- Initial-guess computation of AstronomicalCalculator.find_solar_term_time,
astronomical.py lines 109-120: term_index is SOLAR_TERMS.index(term_name);
the result is the (year, month, day) triple passed to datetime for the seed
of the Newton iteration. -/
def find_solar_term_initial (year term_index : Int) : Int × Int × Int :=
  let approx_day := 6 + (term_index % 2) * 15 + (term_index / 2) * 30
  let year2 := if 20 ≤ term_index then year + 1 else year
  let approx_day2 := if 20 ≤ term_index then 6 + (term_index - 20) * 15 else approx_day
  let month0 := (term_index / 2 + 1) % 12
  let month := if month0 = 0 then 12 else month0
  (year2, month, min approx_day2 28)

/-! ## Rule engine (rules.py) -/

/-- RulePlugin of rules.py: a name (getattr(plugin, name, class name)) and an
apply capability; a Python apply that raises is modelled by Except.error
carrying str(e). -/
structure RulePlugin where
  name : String
  apply : NinePalace → CalendarInfo → Except String (List String)

/-- Outcome recorded by RulesEngine.apply_all for one plugin, rules.py lines
649-655: the plugin's message list on success, or the single error string on
a raised exception. -/
def run_plugin (p : RulePlugin) (np : NinePalace) (cal : CalendarInfo) :
    List String :=
  match p.apply np cal with
  | Except.ok msgs => msgs
  | Except.error e => ["插件执行错误: " ++ e]

/-- Python dict assignment d[k] = v on an association list in insertion
order: overwrite the value in place when the key exists, append otherwise. -/
def dict_set (d : List (String × List String)) (k : String)
    (v : List String) : List (String × List String) :=
  match d with
  | [] => [(k, v)]
  | (k2, v2) :: rest =>
    if k2 = k then (k, v) :: rest else (k2, v2) :: dict_set rest k v

/-- RulesEngine.apply_all from rules.py lines 645-657: runs every registered
plugin, storing each outcome in a dict keyed by the plugin name. -/
def apply_all (plugins : List RulePlugin) (np : NinePalace)
    (cal : CalendarInfo) : List (String × List String) :=
  plugins.foldl (fun results p => dict_set results p.name (run_plugin p np cal)) []

/-! ## Thread-safe LRU cache (cache.py) -/

/-- ThreadSafeLRUCache state from cache.py lines 93-107: the dict plus the
intrusive LRU list are modelled as one association list in recency order
(head = most recently used); each entry carries its optional absolute expiry
time.  The statistics counters are not modelled. -/
structure LRUCache (α : Type) where
  max_size : Int
  default_ttl : Option Int
  entries : List (String × α × Option Int)

/-- ThreadSafeLRUCache._is_expired from cache.py lines 137-141; now stands
for time.time(). -/
def lru_is_expired (now : Int) (expire_time : Option Int) : Bool :=
  match expire_time with
  | none => false
  | some e => if e < now then true else false

/-- ThreadSafeLRUCache.delete from cache.py lines 198-208: returns whether
the key was present, and the cache with the entry removed. -/
def lru_delete {α : Type} (c : LRUCache α) (key : String) :
    Bool × LRUCache α :=
  match c.entries.find? (fun e => e.1 == key) with
  | none => (false, c)
  | some _ => (true, { c with entries := c.entries.eraseP (fun e => e.1 == key) })

/-- ThreadSafeLRUCache.get from cache.py lines 143-160: a missing key is a
miss; an expired entry is deleted and reported as a miss; a hit moves the
entry to the head of the recency list. -/
def lru_get {α : Type} (c : LRUCache α) (now : Int) (key : String) :
    Option α × LRUCache α :=
  match c.entries.find? (fun e => e.1 == key) with
  | none => (none, c)
  | some e =>
    if lru_is_expired now e.2.2 then (none, (lru_delete c key).2)
    else (some e.2.1,
      { c with entries := e :: c.entries.eraseP (fun x => x.1 == key) })

/-- ThreadSafeLRUCache.set from cache.py lines 162-196: expiry from the
explicit ttl, else from default_ttl; an existing key is updated and moved to
the head; a new key is inserted at the head and the least-recently-used
entry is evicted when the size exceeds max_size. -/
def lru_set {α : Type} (c : LRUCache α) (now : Int) (key : String)
    (value : α) (ttl : Option Int) : LRUCache α :=
  let expire_time : Option Int :=
    match ttl with
    | some t => some (now + t)
    | none =>
      match c.default_ttl with
      | some d => some (now + d)
      | none => none
  match c.entries.find? (fun e => e.1 == key) with
  | some _ =>
    { c with entries := (key, value, expire_time)
        :: c.entries.eraseP (fun e => e.1 == key) }
  | none =>
    let entries2 := (key, value, expire_time) :: c.entries
    if c.max_size < (entries2.length : Int) then
      { c with entries := entries2.dropLast }
    else
      { c with entries := entries2 }

/-- ThreadSafeLRUCache.exists from cache.py lines 219-225: present and not
expired. -/
def lru_exists {α : Type} (c : LRUCache α) (now : Int) (key : String) : Bool :=
  match c.entries.find? (fun e => e.1 == key) with
  | none => false
  | some e => !(lru_is_expired now e.2.2)

/-! ## Concrete inputs used by witnesses and counterexamples -/

/-- Concrete calendar record for 2025-01-15 08:00 Asia/Shanghai (the worked
scenario of §8 of the spec), with all stem/branch fields inside the fixed
cycles. -/
def sample_cal : CalendarInfo :=
  { year := 2025, month := 1, day := 15, hour := 8, minute := 0, second := 0
    timezone := "Asia/Shanghai", solar_term := "小寒", solar_term_index := 22
    year_gan := "甲", year_zhi := "辰", month_gan := "丁", month_zhi := "丑"
    day_gan := "戊", day_zhi := "戌", hour_gan := "丙", hour_zhi := "辰"
    shi_chen := "辰时", is_early_zi := false, is_late_zi := false
    jie_qi_day := 5, yuan_shou := 3, use_true_solar_time := false
    true_solar_time := none, time_difference_minutes := 0
    standard_time_shi_chen := "辰时" }

/-- First of two demo plugins sharing one registered name. -/
def demo_plugin_one : RulePlugin :=
  { name := "风险分析", apply := fun _ _ => Except.ok ["第一版结论"] }

/-- Second demo plugin carrying the same name as the first. -/
def demo_plugin_two : RulePlugin :=
  { name := "风险分析", apply := fun _ _ => Except.ok ["第二版结论"] }

/-- Aware datetime 2025-01-15 08:00:00+00:00 (UTC). -/
def dt_utc : PyDateTime :=
  { year := 2025, month := 1, day := 15, hour := 8, minute := 0, second := 0
    tz := some 0 }

/-- The same instant expressed in Asia/Shanghai (UTC+8), i.e. the result of
dt_utc.astimezone for a +480 minute offset. -/
def dt_shanghai : PyDateTime :=
  { year := 2025, month := 1, day := 15, hour := 16, minute := 0, second := 0
    tz := some 480 }

/-- Empty cache with the constructor defaults of cache.py line 96
(max_size 1000, no default ttl). -/
def sample_cache : LRUCache Int :=
  { max_size := 1000, default_ttl := none, entries := [] }

/-- Chart-number formula of the huopan claim, written from the spec words of
§4.4: index = (solarTermIndex*2 + dayStemNum + dayBranchNum + hourBranchNum)
mod 18, final number = (index mod 9) + 1. -/
def huopan_spec_number (solar_term_index day_stem_idx day_branch_idx
    hour_branch_idx : Int) : Int :=
  (solar_term_index * 2 + day_stem_idx + day_branch_idx + hour_branch_idx)
    % 18 % 9 + 1

/-- Chart-number formula of the chabu claim, written from the spec words of
§4.4: base = (yuanShou ± hourBranchNumber ∓ 1) mod 9 with the sign chosen by
polarity, and a result of 0 remapped to 9. -/
def chabu_spec_number (yuan_shou hour_branch_number : Int)
    (is_yang : Bool) : Int :=
  let base :=
    if is_yang then (yuan_shou + hour_branch_number - 1) % 9
    else (yuan_shou - hour_branch_number + 1) % 9
  if base = 0 then 9 else base

/-! ## Helper lemmas -/

theorem indexOf_TIAN_GAN_getD (i : Nat) (h : i < 10) :
    TIAN_GAN.indexOf (TIAN_GAN.getD i "") = i := by
  interval_cases i <;> decide

theorem indexOf_DI_ZHI_getD (i : Nat) (h : i < 12) :
    DI_ZHI.indexOf (DI_ZHI.getD i "") = i := by
  interval_cases i <;> decide

theorem get_shi_chen_number_eq_indexOf (z : String) (h : z ∈ DI_ZHI) :
    get_shi_chen_number z = (DI_ZHI.indexOf z : Int) + 1 := by
  fin_cases h <;> decide

theorem YEAR_MONTH_GAN_TABLE_even (i : Int) : YEAR_MONTH_GAN_TABLE i % 2 = 0 := by
  unfold YEAR_MONTH_GAN_TABLE
  split_ifs <;> decide

theorem DAY_HOUR_GAN_TABLE_even (i : Int) : DAY_HOUR_GAN_TABLE i % 2 = 0 := by
  unfold DAY_HOUR_GAN_TABLE
  split_ifs <;> decide

set_option maxHeartbeats 1000000 in
theorem SOLAR_TERM_TO_ZHI_range (term : String) :
    0 ≤ SOLAR_TERM_TO_ZHI term ∧ SOLAR_TERM_TO_ZHI term ≤ 11 := by
  unfold SOLAR_TERM_TO_ZHI
  split_ifs <;> exact ⟨by decide, by decide⟩

/-! ## Claim theorems -/

/-- Claim C4: for every solar-term index in 0..23, is_yang_dune is true
exactly when the index is 23 or at most 11; index 23 (winter solstice)
gives Yang, index 12 (the term after summer solstice at index 11) gives
Yin. -/
theorem is_yang_dune_spec (cal : CalendarInfo)
    (h0 : 0 ≤ cal.solar_term_index) (h23 : cal.solar_term_index ≤ 23) :
    (is_yang_dune cal = true
      ↔ (cal.solar_term_index = 23 ∨ cal.solar_term_index ≤ 11))
    ∧ is_yang_dune { cal with solar_term_index := 23 } = true
    ∧ is_yang_dune { cal with solar_term_index := 12 } = false := by
  refine ⟨?_, ?_, ?_⟩
  · simp only [is_yang_dune]
    split_ifs with h
    · simp only [true_iff]
      omega
    · simp only [Bool.false_eq_true, false_iff]
      omega
  · simp [is_yang_dune]
  · simp [is_yang_dune]

/-- Witness for is_yang_dune_spec at the sample record (index 22). -/
theorem is_yang_dune_spec_witness :
    (0 ≤ sample_cal.solar_term_index ∧ sample_cal.solar_term_index ≤ 23)
    ∧ ((is_yang_dune sample_cal = true
        ↔ (sample_cal.solar_term_index = 23 ∨ sample_cal.solar_term_index ≤ 11))
      ∧ is_yang_dune { sample_cal with solar_term_index := 23 } = true
      ∧ is_yang_dune { sample_cal with solar_term_index := 12 } = false) :=
  ⟨by decide, is_yang_dune_spec sample_cal (by decide) (by decide)⟩

/-- Claim C2: for every calendar record whose day stem, day branch and hour
branch are in the fixed cycles, get_ju_huopan returns the spec formula
((solarTermIndex*2 + dayStemIdx + dayBranchIdx + hourBranchIdx) mod 18)
mod 9 + 1, a value in 1..9 that is the same under the Yang and the Yin
branch of the computation, paired with the polarity of is_yang_dune. -/
theorem get_ju_huopan_spec (cal : CalendarInfo)
    (hdg : cal.day_gan ∈ TIAN_GAN) (hdz : cal.day_zhi ∈ DI_ZHI)
    (hhz : cal.hour_zhi ∈ DI_ZHI) :
    get_ju_huopan cal
      = (huopan_spec_number cal.solar_term_index (TIAN_GAN.indexOf cal.day_gan)
          (DI_ZHI.indexOf cal.day_zhi) (DI_ZHI.indexOf cal.hour_zhi),
         is_yang_dune cal)
    ∧ 1 ≤ (get_ju_huopan cal).1 ∧ (get_ju_huopan cal).1 ≤ 9
    ∧ calculate_ju_index_huopan cal true % 9 + 1
        = calculate_ju_index_huopan cal false % 9 + 1 := by
  refine ⟨?_, ?_, ?_, ?_⟩
  · simp only [get_ju_huopan, calculate_ju_index_huopan, huopan_spec_number,
      Prod.mk.injEq, and_true]
    split <;> omega
  · simp only [get_ju_huopan, calculate_ju_index_huopan]
    split <;> omega
  · simp only [get_ju_huopan, calculate_ju_index_huopan]
    split <;> omega
  · simp only [calculate_ju_index_huopan, if_true, Bool.false_eq_true, if_false]
    omega

/-- Witness for get_ju_huopan_spec at the sample record. -/
theorem get_ju_huopan_spec_witness :
    (sample_cal.day_gan ∈ TIAN_GAN ∧ sample_cal.day_zhi ∈ DI_ZHI
      ∧ sample_cal.hour_zhi ∈ DI_ZHI)
    ∧ (get_ju_huopan sample_cal
        = (huopan_spec_number sample_cal.solar_term_index
            (TIAN_GAN.indexOf sample_cal.day_gan)
            (DI_ZHI.indexOf sample_cal.day_zhi)
            (DI_ZHI.indexOf sample_cal.hour_zhi), is_yang_dune sample_cal)
      ∧ 1 ≤ (get_ju_huopan sample_cal).1 ∧ (get_ju_huopan sample_cal).1 ≤ 9
      ∧ calculate_ju_index_huopan sample_cal true % 9 + 1
          = calculate_ju_index_huopan sample_cal false % 9 + 1) :=
  ⟨⟨by decide, by decide, by decide⟩,
    get_ju_huopan_spec sample_cal (by decide) (by decide) (by decide)⟩

/-- Claim C3: for every calendar record whose hour branch is in the cycle,
get_ju_chabu returns (yuanShou + hourBranchNumber - 1) mod 9 for Yang and
(yuanShou - hourBranchNumber + 1) mod 9 for Yin with 0 remapped to 9, where
the hour-branch number is the 1..12 position (zi = 1 ... hai = 12); the
result is always in 1..9 and is paired with the polarity of is_yang_dune. -/
theorem get_ju_chabu_spec (cal : CalendarInfo) (hhz : cal.hour_zhi ∈ DI_ZHI) :
    get_ju_chabu cal
      = (chabu_spec_number cal.yuan_shou ((DI_ZHI.indexOf cal.hour_zhi : Int) + 1)
          (is_yang_dune cal), is_yang_dune cal)
    ∧ get_shi_chen_number cal.hour_zhi = (DI_ZHI.indexOf cal.hour_zhi : Int) + 1
    ∧ 1 ≤ (get_ju_chabu cal).1 ∧ (get_ju_chabu cal).1 ≤ 9 := by
  have hnum := get_shi_chen_number_eq_indexOf cal.hour_zhi hhz
  refine ⟨?_, hnum, ?_, ?_⟩
  · simp only [get_ju_chabu, calculate_ju_number_chabu, chabu_spec_number, hnum,
      Prod.mk.injEq, and_true]
  · simp only [get_ju_chabu, calculate_ju_number_chabu]
    split <;> split <;> omega
  · simp only [get_ju_chabu, calculate_ju_number_chabu]
    split <;> split <;> omega

/-- Witness for get_ju_chabu_spec at the sample record. -/
theorem get_ju_chabu_spec_witness :
    sample_cal.hour_zhi ∈ DI_ZHI
    ∧ (get_ju_chabu sample_cal
        = (chabu_spec_number sample_cal.yuan_shou
            ((DI_ZHI.indexOf sample_cal.hour_zhi : Int) + 1)
            (is_yang_dune sample_cal), is_yang_dune sample_cal)
      ∧ get_shi_chen_number sample_cal.hour_zhi
          = (DI_ZHI.indexOf sample_cal.hour_zhi : Int) + 1
      ∧ 1 ≤ (get_ju_chabu sample_cal).1 ∧ (get_ju_chabu sample_cal).1 ≤ 9) :=
  ⟨by decide, get_ju_chabu_spec sample_cal (by decide)⟩

/-- Claim C8 (code bug): the Newton-iteration seed of find_solar_term_time
for terms with ordinal index at least 20 is rolled into the following year
but lands in November (index 20, 21) or December (index 22, 23), never in
January as the spec and the comment on astronomical.py line 111 state. -/
theorem find_solar_term_seed_not_january :
    find_solar_term_initial 2024 20 = (2025, 11, 6)
    ∧ find_solar_term_initial 2024 21 = (2025, 11, 21)
    ∧ find_solar_term_initial 2024 22 = (2025, 12, 28)
    ∧ find_solar_term_initial 2024 23 = (2025, 12, 28)
    ∧ (find_solar_term_initial 2024 22).2.1 ≠ 1 := by
  decide

/-- Claim C10: fly_pan always returns a board whose ju_number is 0 and whose
is_yang flag is true, independently of the calendar record. -/
theorem fly_pan_fixed_header (cal : CalendarInfo) :
    (fly_pan cal).ju_number = 0 ∧ (fly_pan cal).is_yang = true :=
  ⟨rfl, rfl⟩

theorem month_pillar_parity_aux (B Z : Int) (hB : B % 2 = 0) (hZ0 : 0 ≤ Z)
    (hZ : Z ≤ 11) :
    TIAN_GAN.indexOf (TIAN_GAN.getD ((B + (Z - 2)) % 10).toNat "") % 2
      = DI_ZHI.indexOf (DI_ZHI.getD Z.toNat "") % 2 := by
  rw [indexOf_TIAN_GAN_getD _ (by omega), indexOf_DI_ZHI_getD _ (by omega)]
  omega

theorem hour_pillar_parity_aux (B Z : Int) (hB : B % 2 = 0) (hZ0 : 0 ≤ Z)
    (hZ : Z ≤ 11) :
    TIAN_GAN.indexOf (TIAN_GAN.getD ((B + Z) % 10).toNat "") % 2
      = DI_ZHI.indexOf (DI_ZHI.getD Z.toNat "") % 2 := by
  rw [indexOf_TIAN_GAN_getD _ (by omega), indexOf_DI_ZHI_getD _ (by omega)]
  omega

/-- Claim C6: every computed stem/branch pair - year, month, day and hour
pillar - has a stem index and a branch index of the same parity. -/
theorem ganzhi_parity (year y m d civil_month : Int)
    (solar_term day_gan : String) (use_solar_terms : Bool) (hour : Int)
    (h0 : 0 ≤ hour) (h23 : hour ≤ 23) :
    stem_branch_parity (calculate_year_ganzhi year)
    ∧ stem_branch_parity
        (calculate_month_ganzhi year solar_term civil_month use_solar_terms)
    ∧ stem_branch_parity (calculate_day_ganzhi y m d)
    ∧ stem_branch_parity (from_datetime_hour_pillar day_gan hour) := by
  refine ⟨?_, ?_, ?_, ?_⟩
  · simp only [stem_branch_parity, calculate_year_ganzhi]
    rw [indexOf_TIAN_GAN_getD _ (by omega), indexOf_DI_ZHI_getD _ (by omega)]
    omega
  · cases use_solar_terms with
    | true =>
      simp only [stem_branch_parity, calculate_month_ganzhi, if_true]
      exact month_pillar_parity_aux _ _ (YEAR_MONTH_GAN_TABLE_even _)
        (SOLAR_TERM_TO_ZHI_range solar_term).1 (SOLAR_TERM_TO_ZHI_range solar_term).2
    | false =>
      simp only [stem_branch_parity, calculate_month_ganzhi, Bool.false_eq_true,
        if_false]
      exact month_pillar_parity_aux _ _ (YEAR_MONTH_GAN_TABLE_even _)
        (by omega) (by omega)
  · simp only [stem_branch_parity, calculate_day_ganzhi]
    rw [indexOf_TIAN_GAN_getD _ (by omega), indexOf_DI_ZHI_getD _ (by omega)]
    omega
  · simp only [stem_branch_parity, from_datetime_hour_pillar]
    exact hour_pillar_parity_aux _ _ (DAY_HOUR_GAN_TABLE_even _)
      (by split <;> omega) (by split <;> omega)

/-- Witness for ganzhi_parity at 2025-01-15 08:00 (term 小寒, day stem 戊). -/
theorem ganzhi_parity_witness :
    ((0 : Int) ≤ 8 ∧ (8 : Int) ≤ 23)
    ∧ (stem_branch_parity (calculate_year_ganzhi 2025)
      ∧ stem_branch_parity (calculate_month_ganzhi 2025 "小寒" 1 true)
      ∧ stem_branch_parity (calculate_day_ganzhi 2025 1 15)
      ∧ stem_branch_parity (from_datetime_hour_pillar "戊" 8)) :=
  ⟨by decide, ganzhi_parity 2025 2025 1 15 1 "小寒" "戊" true 8 (by decide) (by decide)⟩

theorem calculate_fly_start_gong_bounds (a b c d : Nat) :
    1 ≤ calculate_fly_start_gong a b c d ∧ calculate_fly_start_gong a b c d ≤ 9 := by
  simp only [calculate_fly_start_gong]
  split <;> omega

theorem fly_values_perm (s : Nat) (h1 : 1 ≤ s) (h9 : s ≤ 9) :
    ((List.range 9).map (fun k => get_fly_gan (calculate_fly_position s (k + 1)))).Perm
        base_sequence
    ∧ ((List.range 9).map (fun k => get_fly_men (calculate_fly_position s (k + 1)))).Perm
        men_sequence
    ∧ ((List.range 9).map (fun k => get_fly_xing (calculate_fly_position s (k + 1)))).Perm
        xing_sequence
    ∧ ((List.range 9).map (fun k => get_fly_shen (calculate_fly_position s (k + 1)))).Perm
        shen_sequence := by
  interval_cases s <;> exact ⟨by decide, by decide, by decide, by decide⟩

/-- Claim C5: both the computed-rotation turn-plate builder (for every chart
number 1..9 and both polarities) and the fly-plate builder (for every
calendar record with stems and branches in the fixed cycles) distribute each
base sequence over the nine palaces as a permutation: no value duplicated,
none omitted. -/
theorem pan_sequences_perm (ju_number : Int) (is_yang : Bool)
    (cal : CalendarInfo) (h1 : 1 ≤ ju_number) (h9 : ju_number ≤ 9)
    (hyg : cal.year_gan ∈ TIAN_GAN) (hmz : cal.month_zhi ∈ DI_ZHI)
    (hdg : cal.day_gan ∈ TIAN_GAN) (hhz : cal.hour_zhi ∈ DI_ZHI) :
    (((calculate_turn_pan ju_number is_yang).palaces.map (fun e => e.2.gan)).Perm
        base_sequence
      ∧ ((calculate_turn_pan ju_number is_yang).palaces.map (fun e => e.2.men)).Perm
        men_sequence
      ∧ ((calculate_turn_pan ju_number is_yang).palaces.map (fun e => e.2.xing)).Perm
        xing_sequence
      ∧ ((calculate_turn_pan ju_number is_yang).palaces.map (fun e => e.2.shen)).Perm
        shen_sequence)
    ∧ (((fly_pan cal).palaces.map (fun e => e.2.gan)).Perm base_sequence
      ∧ ((fly_pan cal).palaces.map (fun e => e.2.men)).Perm men_sequence
      ∧ ((fly_pan cal).palaces.map (fun e => e.2.xing)).Perm xing_sequence
      ∧ ((fly_pan cal).palaces.map (fun e => e.2.shen)).Perm shen_sequence) := by
  constructor
  · interval_cases ju_number <;> cases is_yang <;>
      exact ⟨by decide, by decide, by decide, by decide⟩
  · have hb := calculate_fly_start_gong_bounds (TIAN_GAN.indexOf cal.year_gan)
      (DI_ZHI.indexOf cal.month_zhi) (TIAN_GAN.indexOf cal.day_gan)
      (DI_ZHI.indexOf cal.hour_zhi)
    have hp := fly_values_perm _ hb.1 hb.2
    simp only [fly_pan, List.map_map, Function.comp_def]
    exact hp

/-- Witness for pan_sequences_perm at chart number 1, Yang, and the sample
record. -/
theorem pan_sequences_perm_witness :
    ((1 : Int) ≤ 1 ∧ (1 : Int) ≤ 9 ∧ sample_cal.year_gan ∈ TIAN_GAN
      ∧ sample_cal.month_zhi ∈ DI_ZHI ∧ sample_cal.day_gan ∈ TIAN_GAN
      ∧ sample_cal.hour_zhi ∈ DI_ZHI)
    ∧ ((((calculate_turn_pan 1 true).palaces.map (fun e => e.2.gan)).Perm
          base_sequence
        ∧ ((calculate_turn_pan 1 true).palaces.map (fun e => e.2.men)).Perm
          men_sequence
        ∧ ((calculate_turn_pan 1 true).palaces.map (fun e => e.2.xing)).Perm
          xing_sequence
        ∧ ((calculate_turn_pan 1 true).palaces.map (fun e => e.2.shen)).Perm
          shen_sequence)
      ∧ (((fly_pan sample_cal).palaces.map (fun e => e.2.gan)).Perm base_sequence
        ∧ ((fly_pan sample_cal).palaces.map (fun e => e.2.men)).Perm men_sequence
        ∧ ((fly_pan sample_cal).palaces.map (fun e => e.2.xing)).Perm xing_sequence
        ∧ ((fly_pan sample_cal).palaces.map (fun e => e.2.shen)).Perm shen_sequence)) :=
  ⟨⟨by decide, by decide, by decide, by decide, by decide, by decide⟩,
    pan_sequences_perm 1 true sample_cal (by decide) (by decide) (by decide)
      (by decide) (by decide) (by decide)⟩

theorem dict_set_of_not_mem (d : List (String × List String)) (k : String)
    (v : List String) (h : k ∉ d.map Prod.fst) :
    dict_set d k v = d ++ [(k, v)] := by
  induction d with
  | nil => rfl
  | cons e rest ih =>
    simp only [List.map_cons, List.mem_cons] at h
    push_neg at h
    simp only [dict_set]
    rw [if_neg (fun he => h.1 he.symm), ih h.2]
    rfl

theorem apply_all_eq_map_aux (np : NinePalace) (cal : CalendarInfo) :
    ∀ (ps : List RulePlugin) (acc : List (String × List String)),
    (acc.map Prod.fst ++ ps.map RulePlugin.name).Nodup →
    ps.foldl (fun results p => dict_set results p.name (run_plugin p np cal)) acc
      = acc ++ ps.map (fun p => (p.name, run_plugin p np cal)) := by
  intro ps
  induction ps with
  | nil => intro acc _; simp
  | cons p rest ih =>
    intro acc h
    have hnotin : p.name ∉ acc.map Prod.fst := by
      intro hmem
      exact (List.nodup_append.mp h).2.2 hmem (List.mem_cons_self _ _)
    simp only [List.foldl_cons]
    rw [dict_set_of_not_mem _ _ _ hnotin]
    rw [ih (acc ++ [(p.name, run_plugin p np cal)])
      (by simpa [List.append_assoc] using h)]
    simp

theorem apply_all_eq_map (plugins : List RulePlugin) (np : NinePalace)
    (cal : CalendarInfo) (h : (plugins.map RulePlugin.name).Nodup) :
    apply_all plugins np cal
      = plugins.map (fun p => (p.name, run_plugin p np cal)) := by
  have := apply_all_eq_map_aux np cal plugins [] (by simpa using h)
  simpa [apply_all] using this

theorem lookup_name_map (f : RulePlugin → List String) :
    ∀ (ps : List RulePlugin), (ps.map RulePlugin.name).Nodup →
    ∀ p ∈ ps, (ps.map (fun q => (q.name, f q))).lookup p.name = some (f p) := by
  intro ps
  induction ps with
  | nil => intro _ p hp; cases hp
  | cons q rest ih =>
    intro h p hp
    rcases List.mem_cons.mp hp with rfl | hp2
    · simp [List.lookup]
    · have hq : q.name ∉ rest.map RulePlugin.name :=
        (List.nodup_cons.mp (by simpa using h)).1
      have hne : p.name ≠ q.name := by
        intro he
        exact hq (he ▸ List.mem_map_of_mem RulePlugin.name hp2)
      have hbeq : (p.name == q.name) = false := by simpa using hne
      simp only [List.map_cons, List.lookup, hbeq]
      exact ih (List.nodup_cons.mp (by simpa using h)).2 p hp2

/-- Claim C1 (amended): for plugins with pairwise-distinct registered names,
apply_all returns one entry per plugin; each plugin's entry is its own
message list - the single error string when its apply raises - and each
entry is unchanged when a differently-named plugin is removed from the
registry, so one plugin's failure never disturbs the others. -/
theorem apply_all_isolates_plugins (plugins : List RulePlugin)
    (np : NinePalace) (cal : CalendarInfo)
    (hnd : (plugins.map RulePlugin.name).Nodup) :
    (apply_all plugins np cal).length = plugins.length
    ∧ (∀ p ∈ plugins,
        (apply_all plugins np cal).lookup p.name = some (run_plugin p np cal))
    ∧ (∀ p ∈ plugins, ∀ e, p.apply np cal = Except.error e →
        (apply_all plugins np cal).lookup p.name
          = some ["插件执行错误: " ++ e])
    ∧ (∀ bad ∈ plugins, ∀ p ∈ plugins, p.name ≠ bad.name →
        (apply_all (plugins.filter (fun q => q.name != bad.name)) np cal).lookup
            p.name
          = (apply_all plugins np cal).lookup p.name) := by
  have hmap := apply_all_eq_map plugins np cal hnd
  refine ⟨?_, ?_, ?_, ?_⟩
  · rw [hmap, List.length_map]
  · intro p hp
    rw [hmap]
    exact lookup_name_map _ plugins hnd p hp
  · intro p hp e he
    rw [hmap, lookup_name_map _ plugins hnd p hp]
    simp [run_plugin, he]
  · intro bad hbad p hp hne
    have hsub : ((plugins.filter (fun q => q.name != bad.name)).map
        RulePlugin.name).Nodup :=
      ((List.filter_sublist plugins).map RulePlugin.name).nodup hnd
    have hpf : p ∈ plugins.filter (fun q => q.name != bad.name) :=
      List.mem_filter.mpr ⟨hp, by simpa using hne⟩
    rw [hmap, apply_all_eq_map _ np cal hsub]
    rw [lookup_name_map _ _ hsub p hpf, lookup_name_map _ plugins hnd p hp]

/-- Witness for apply_all_isolates_plugins: one throwing plugin registered
beside a normal one, both names distinct. -/
theorem apply_all_isolates_plugins_witness :
    (([⟨"值符分析", fun _ _ => Except.error "状态异常"⟩,
        demo_plugin_one] : List RulePlugin).map RulePlugin.name).Nodup
    ∧ (apply_all [⟨"值符分析", fun _ _ => Except.error "状态异常"⟩,
        demo_plugin_one] (calculate_turn_pan 1 true) sample_cal).length
      = ([⟨"值符分析", fun _ _ => Except.error "状态异常"⟩,
          demo_plugin_one] : List RulePlugin).length :=
  ⟨by decide,
    (apply_all_isolates_plugins
      [⟨"值符分析", fun _ _ => Except.error "状态异常"⟩, demo_plugin_one]
      (calculate_turn_pan 1 true) sample_cal (by decide)).1⟩

/-- Counterexample to claim C1 as stated: two registered plugins sharing one
name collapse to a single entry of apply_all, so the returned mapping does
not have one entry per registered plugin. -/
theorem apply_all_duplicate_name_counterexample :
    (apply_all [demo_plugin_one, demo_plugin_two] (calculate_turn_pan 1 true)
        sample_cal).length
      ≠ ([demo_plugin_one, demo_plugin_two] : List RulePlugin).length := by
  decide

theorem julian_day_tz_invariant (dt : PyDateTime) :
    julian_day dt = julian_day (replace_tzinfo_none dt) := by
  cases dt with
  | mk y mo da h mi s tz => cases tz <;> rfl

theorem julian_day_eq_utc_seconds (x : PyDateTime) (off : Int) :
    julian_day x = ((utc_total_seconds x off : ℚ) + 60 * off) / 86400 - 1 / 2 := by
  cases x with
  | mk y mo da h mi s tz =>
    cases tz <;>
    · simp only [julian_day, utc_total_seconds, replace_tzinfo_none,
        Option.isSome_none, Option.isSome_some, Bool.false_eq_true, if_false,
        if_true]
      push_cast
      field_simp
      ring

/-- Claim C7 (amended): julian_day strips the tzinfo of an aware input
without converting, so it always equals julian_day of the tz-dropped naive
datetime; the timezone-converted counterpart instead shifts the Julian day
by (targetOffset - sourceOffset)/1440, so the two agree only when the
offsets coincide.  The convert-then-strip normalization happens upstream,
in qimen_calendar.from_datetime, before julian_day is reached. -/
theorem julian_day_strips_tz (dt dtC : PyDateTime) (target o : Int)
    (hdt : dt.tz = some o) (hconv : is_astimezone_of dt dtC target) :
    julian_day dt = julian_day (replace_tzinfo_none dt)
    ∧ julian_day dtC = julian_day dt + ((target : ℚ) - (o : ℚ)) / 1440 := by
  refine ⟨julian_day_tz_invariant dt, ?_⟩
  obtain ⟨o2, ho2, htzC, heq⟩ := hconv
  have hoo : o2 = o := by
    rw [hdt] at ho2
    exact (Option.some_inj.mp ho2).symm
  subst hoo
  rw [julian_day_eq_utc_seconds dtC target, julian_day_eq_utc_seconds dt o2, heq]
  ring

/-- Witness for julian_day_strips_tz: 2025-01-15 08:00 UTC converted to
Asia/Shanghai. -/
theorem julian_day_strips_tz_witness :
    dt_utc.tz = some 0 ∧ is_astimezone_of dt_utc dt_shanghai 480
    ∧ (julian_day dt_utc = julian_day (replace_tzinfo_none dt_utc)
      ∧ julian_day dt_shanghai
          = julian_day dt_utc + (((480 : Int) : ℚ) - ((0 : Int) : ℚ)) / 1440) :=
  ⟨rfl, ⟨0, rfl, rfl, by decide⟩,
    julian_day_strips_tz dt_utc dt_shanghai 480 0 rfl ⟨0, rfl, rfl, by decide⟩⟩

/-- Counterexample to claim C7 as stated: julian_day of an aware datetime
equals julian_day of the input with the offset simply ignored and the
tzinfo dropped, and differs from julian_day of the timezone-converted
naive counterpart. -/
theorem julian_day_ignores_offset_counterexample :
    is_astimezone_of dt_utc dt_shanghai 480
    ∧ julian_day dt_utc ≠ julian_day (replace_tzinfo_none dt_shanghai)
    ∧ julian_day dt_utc = julian_day (replace_tzinfo_none dt_utc) := by
  refine ⟨⟨0, rfl, rfl, by decide⟩, ?_, julian_day_tz_invariant dt_utc⟩
  norm_num [julian_day, replace_tzinfo_none, dt_utc, dt_shanghai, gregorian_jdn]

theorem find?_key_eq_none {α : Type} (l : List (String × α × Option Int))
    (k : String) (h : k ∉ l.map (fun e => e.1)) :
    l.find? (fun e => e.1 == k) = none := by
  apply List.find?_eq_none.mpr
  intro x hx hpx
  exact h ((beq_iff_eq.mp hpx) ▸ List.mem_map_of_mem (fun e => e.1) hx)

theorem eraseP_key_find?_none {α : Type} (l : List (String × α × Option Int))
    (k : String) (h : (l.map (fun e => e.1)).Nodup) :
    (l.eraseP (fun e => e.1 == k)).find? (fun e => e.1 == k) = none := by
  induction l with
  | nil => rfl
  | cons e rest ih =>
    rw [List.map_cons] at h
    obtain ⟨he, hrest⟩ := List.nodup_cons.mp h
    by_cases hk : e.1 = k
    · rw [List.eraseP_cons_of_pos (by simpa using hk)]
      exact find?_key_eq_none rest k (hk ▸ he)
    · rw [List.eraseP_cons_of_neg (by simpa using hk)]
      rw [List.find?_cons_of_neg _ (by simpa using hk)]
      exact ih hrest

theorem lru_set_keys_nodup {α : Type} (c : LRUCache α) (now : Int)
    (k : String) (v : α) (ttl : Option Int)
    (h : (c.entries.map (fun e => e.1)).Nodup) :
    ((lru_set c now k v ttl).entries.map (fun e => e.1)).Nodup := by
  cases hf : c.entries.find? (fun e => e.1 == k) with
  | some e =>
    simp only [lru_set, hf]
    refine List.nodup_cons.mpr
      ⟨?_, ((List.eraseP_sublist c.entries).map (fun e => e.1)).nodup h⟩
    intro hmem
    have hn := eraseP_key_find?_none c.entries k h
    rw [List.find?_eq_none] at hn
    obtain ⟨x, hx, hxk⟩ := List.mem_map.mp hmem
    exact hn x hx (by simpa using hxk)
  | none =>
    have hknot : k ∉ c.entries.map (fun e => e.1) := by
      intro hmem
      obtain ⟨x, hx, hxk⟩ := List.mem_map.mp hmem
      rw [List.find?_eq_none] at hf
      exact hf x hx (by simpa using hxk)
    have hcons : ∀ E : Option Int,
        (((k, v, E) :: c.entries).map (fun e => e.1)).Nodup := by
      intro E
      rw [List.map_cons]
      exact List.nodup_cons.mpr ⟨hknot, h⟩
    simp only [lru_set, hf]
    split
    · show ((((k, v, _) :: c.entries).dropLast).map
        (fun e : String × α × Option Int => e.1)).Nodup
      exact ((List.dropLast_sublist _).map
        (fun e : String × α × Option Int => e.1)).nodup (hcons _)
    · show (((k, v, _) :: c.entries).map
        (fun e : String × α × Option Int => e.1)).Nodup
      exact hcons _

theorem lru_exists_delete_eq_false {α : Type} (c : LRUCache α) (now : Int)
    (k : String) (h : (c.entries.map (fun e => e.1)).Nodup) :
    lru_exists (lru_delete c k).2 now k = false := by
  cases hf : c.entries.find? (fun e => e.1 == k) with
  | none => simp only [lru_delete, hf, lru_exists]
  | some e =>
    simp only [lru_delete, hf, lru_exists]
    rw [eraseP_key_find?_none c.entries k h]

theorem lru_get_cons_head {α : Type} (m : Int) (dttl : Option Int)
    (rest : List (String × α × Option Int)) (now : Int) (k : String) (v : α)
    (E : Option Int) (hE : lru_is_expired now E = false) :
    (lru_get ⟨m, dttl, (k, v, E) :: rest⟩ now k) =
      (some v, ⟨m, dttl, (k, v, E) :: ((k, v, E) :: rest).eraseP
        (fun x => x.1 == k)⟩) := by
  simp only [lru_get]
  rw [List.find?_cons_of_pos _ (by simp)]
  simp [hE]

theorem lru_get_set_eq {α : Type} (c : LRUCache α) (now : Int) (k : String)
    (v : α) (hmax : 1 ≤ c.max_size)
    (httl : ∀ d, c.default_ttl = some d → 0 ≤ d) :
    (lru_get (lru_set c now k v none) now k).1 = some v := by
  have hexp : lru_is_expired now (match c.default_ttl with
      | some d => some (now + d)
      | none => none) = false := by
    cases hd : c.default_ttl with
    | none => rfl
    | some d =>
      have := httl d hd
      simp only [lru_is_expired]
      rw [if_neg (by omega)]
  cases hf : c.entries.find? (fun e => e.1 == k) with
  | some e =>
    simp only [lru_set, hf]
    rw [lru_get_cons_head _ _ _ _ _ _ _ hexp]
  | none =>
    simp only [lru_set, hf]
    split
    next hlen =>
      have hlen2 : 1 ≤ c.entries.length := by
        simp only [List.length_cons] at hlen
        push_cast at hlen
        omega
      obtain ⟨b, t, hbt⟩ : ∃ b t, c.entries = b :: t := by
        cases hc : c.entries with
        | nil => rw [hc] at hlen2; simp at hlen2
        | cons b t => exact ⟨b, t, rfl⟩
      rw [hbt, List.dropLast_cons₂]
      rw [lru_get_cons_head _ _ _ _ _ _ _ hexp]
    next hlen =>
      rw [lru_get_cons_head _ _ _ _ _ _ _ hexp]

/-- Claim C9: on a cache whose configured max_size is at least 1 (the config
validation of config.py lines 323-324 rejects smaller sizes), with a
nonnegative default ttl if any and the dict invariant of unique keys,
set(k, v) immediately followed by get(k) returns v, and exists(k) is false
right after delete(k). -/
theorem lru_set_get_delete_exists {α : Type} (c : LRUCache α) (now : Int)
    (k : String) (v : α) (hmax : 1 ≤ c.max_size)
    (httl : ∀ d, c.default_ttl = some d → 0 ≤ d)
    (hnd : (c.entries.map (fun e => e.1)).Nodup) :
    (lru_get (lru_set c now k v none) now k).1 = some v
    ∧ lru_exists (lru_delete (lru_set c now k v none) k).2 now k = false :=
  ⟨lru_get_set_eq c now k v hmax httl,
    lru_exists_delete_eq_false _ now k (lru_set_keys_nodup c now k v none hnd)⟩

/-- Witness for lru_set_get_delete_exists on the default-constructed cache. -/
theorem lru_set_get_delete_exists_witness :
    ((1 : Int) ≤ sample_cache.max_size
      ∧ (sample_cache.entries.map (fun e => e.1)).Nodup)
    ∧ ((lru_get (lru_set sample_cache 0 "solar_terms:2025" 42 none) 0
          "solar_terms:2025").1 = some 42
      ∧ lru_exists (lru_delete (lru_set sample_cache 0 "solar_terms:2025" 42
          none) "solar_terms:2025").2 0 "solar_terms:2025" = false) :=
  ⟨⟨by decide, by decide⟩,
    lru_set_get_delete_exists sample_cache 0 "solar_terms:2025" 42 (by decide)
      (fun d h => by cases h) (by decide)⟩

end ModelVS3
